import Mathlib

/-!
Verification of the polling / extraction / download pipeline of the
lyrics-and-music generator (`main.py`).

The JSON values the remote API returns are modelled by the inductive type
`Json` below; Python dictionaries become ordered association lists (insertion
order preserved, first binding wins on lookup, as for real JSON parsed into a
Python dict).  Python truthiness is modelled by `truthy`.  Each function of
`MusicGenerator` that the claims touch is translated into a Lean function over
this model; the network is an explicit environment (a function from endpoint
URL to HTTP result, or a script of status responses indexed by poll cycle).
-/

inductive Json where
  | null
  | bool (b : Bool)
  | num (n : Int)
  | str (s : String)
  | arr (items : List Json)
  | obj (fields : List (String × Json))

/-- Python truthiness of a JSON value: `None`, `False`, `0`, `""`, `[]`, `{}`
are falsy, everything else truthy. -/
def truthy : Json → Bool
  | Json.null => false
  | Json.bool b => b
  | Json.num n => n != 0
  | Json.str s => s != ""
  | Json.arr items => !items.isEmpty
  | Json.obj fields => !fields.isEmpty

/-- Truthiness of `Option Json` (Python `None` for `Option.none`). -/
def truthyOpt : Option Json → Bool
  | some v => truthy v
  | none => false

/-- Python `x == n` for a JSON value against an int literal (different types
compare unequal). -/
def jeqNum : Json → Int → Bool
  | Json.num m, n => m == n
  | _, _ => false

/-- Python `x == "s"` for a JSON value against a string literal. -/
def jeqStr : Json → String → Bool
  | Json.str t, s => t == s
  | _, _ => false

/-- The ordered candidate keys of `find_audio_url` (main.py line 201). -/
def audioUrlKeys : List String := ["audioUrl", "audio_url", "url", "mp3Url", "streamUrl"]

/-- The ordered candidate keys of `find_audio_id` (main.py line 244). -/
def audioIdKeys : List String := ["audioId", "audio_id", "id"]

/-- `for key in keys: if key in obj and obj[key]: return obj[key]` —
the direct-field probe shared by `find_audio_url` / `find_audio_id`:
first candidate key that is present with a truthy value. -/
def firstTruthyKey : List String → List (String × Json) → Option Json
  | [], _ => none
  | k :: ks, fields =>
    match fields.lookup k with
    | some v => if truthy v then some v else firstTruthyKey ks fields
    | none => firstTruthyKey ks fields

/-- The `data` sub-object probe of `find_audio_url` (main.py lines 206-217):
if `data` is a dict, return `data["audio_url"]` when the key is present
(note: returned even when its value is falsy), else `data.results[0].audio_url`
when that path exists.  `none` means the probe fell through to the recursive
search. -/
def dataAudioUrlProbe (fields : List (String × Json)) : Option Json :=
  match fields.lookup "data" with
  | some (Json.obj d) =>
    match d.lookup "audio_url" with
    | some v => some v
    | none =>
      match d.lookup "results" with
      | some (Json.arr (r :: _)) =>
        match r with
        | Json.obj rf => rf.lookup "audio_url"
        | _ => none
      | _ => none
  | _ => none

/-- The `data` sub-object probe of `find_audio_id` (main.py lines 249-260):
`data["audioId"]` when present (even falsy), else `data.results[0].audioId`. -/
def dataAudioIdProbe (fields : List (String × Json)) : Option Json :=
  match fields.lookup "data" with
  | some (Json.obj d) =>
    match d.lookup "audioId" with
    | some v => some v
    | none =>
      match d.lookup "results" with
      | some (Json.arr (r :: _)) =>
        match r with
        | Json.obj rf => rf.lookup "audioId"
        | _ => none
      | _ => none
  | _ => none

mutual

/-- `MusicGenerator.find_audio_url` (main.py lines 189-230): direct candidate
keys (truthy values only), then the `data` / `data.results[0]` probes (values
returned even when falsy), then a recursive search over the values in
insertion order keeping only truthy results. -/
def find_audio_url : Json → Option Json
  | Json.obj fields =>
    match firstTruthyKey audioUrlKeys fields with
    | some v => some v
    | none =>
      match dataAudioUrlProbe fields with
      | some v => some v
      | none => audioUrlSearchFields fields
  | Json.arr items => audioUrlSearchList items
  | _ => none
termination_by j => sizeOf j

/-- `for k, v in obj.items(): result = self.find_audio_url(v); if result: return result` -/
def audioUrlSearchFields : List (String × Json) → Option Json
  | [] => none
  | (_, v) :: rest =>
    match find_audio_url v with
    | some r => if truthy r then some r else audioUrlSearchFields rest
    | none => audioUrlSearchFields rest
termination_by fs => sizeOf fs

/-- `for item in obj: result = self.find_audio_url(item); if result: return result` -/
def audioUrlSearchList : List Json → Option Json
  | [] => none
  | v :: rest =>
    match find_audio_url v with
    | some r => if truthy r then some r else audioUrlSearchList rest
    | none => audioUrlSearchList rest
termination_by xs => sizeOf xs

end

mutual

/-- `MusicGenerator.find_audio_id` (main.py lines 232-273), same shape as
`find_audio_url` with the id key list and the `audioId` data probes. -/
def find_audio_id : Json → Option Json
  | Json.obj fields =>
    match firstTruthyKey audioIdKeys fields with
    | some v => some v
    | none =>
      match dataAudioIdProbe fields with
      | some v => some v
      | none => audioIdSearchFields fields
  | Json.arr items => audioIdSearchList items
  | _ => none
termination_by j => sizeOf j

def audioIdSearchFields : List (String × Json) → Option Json
  | [] => none
  | (_, v) :: rest =>
    match find_audio_id v with
    | some r => if truthy r then some r else audioIdSearchFields rest
    | none => audioIdSearchFields rest
termination_by fs => sizeOf fs

def audioIdSearchList : List Json → Option Json
  | [] => none
  | v :: rest =>
    match find_audio_id v with
    | some r => if truthy r then some r else audioIdSearchList rest
    | none => audioIdSearchList rest
termination_by xs => sizeOf xs

end

mutual

/-- The nested `find_status` helper of `monitor_and_download` (main.py lines
807-820): a dict with a `status` key returns its value (even falsy, and this
preempts recursion below that dict); otherwise the values are searched in
order, keeping only truthy results. -/
def find_status : Json → Option Json
  | Json.obj fields =>
    match fields.lookup "status" with
    | some v => some v
    | none => statusSearchFields fields
  | Json.arr items => statusSearchList items
  | _ => none
termination_by j => sizeOf j

def statusSearchFields : List (String × Json) → Option Json
  | [] => none
  | (_, v) :: rest =>
    match find_status v with
    | some r => if truthy r then some r else statusSearchFields rest
    | none => statusSearchFields rest
termination_by fs => sizeOf fs

def statusSearchList : List Json → Option Json
  | [] => none
  | v :: rest =>
    match find_status v with
    | some r => if truthy r then some r else statusSearchList rest
    | none => statusSearchList rest
termination_by xs => sizeOf xs

end

mutual

/-- The nested `find_task_id` helper of `main` (main.py lines 1034-1047),
identical in shape to `find_status` with the key `taskId`. -/
def find_task_id : Json → Option Json
  | Json.obj fields =>
    match fields.lookup "taskId" with
    | some v => some v
    | none => taskIdSearchFields fields
  | Json.arr items => taskIdSearchList items
  | _ => none
termination_by j => sizeOf j

def taskIdSearchFields : List (String × Json) → Option Json
  | [] => none
  | (_, v) :: rest =>
    match find_task_id v with
    | some r => if truthy r then some r else taskIdSearchFields rest
    | none => taskIdSearchFields rest
termination_by fs => sizeOf fs

def taskIdSearchList : List Json → Option Json
  | [] => none
  | v :: rest =>
    match find_task_id v with
    | some r => if truthy r then some r else taskIdSearchList rest
    | none => taskIdSearchList rest
termination_by xs => sizeOf xs

end

/-- `for key in keys: if key in obj: return obj[key]` — the direct-field probe
of the nested `find_url` helper (main.py lines 648-650) and of the video-URL
field loop (lines 630-633): first candidate key that is present, its value
returned even when falsy. -/
def firstPresentKey : List String → List (String × Json) → Option Json
  | [], _ => none
  | k :: ks, fields =>
    match fields.lookup k with
    | some v => some v
    | none => firstPresentKey ks fields

/-- The candidate keys for the video URL (main.py lines 630 and 662). -/
def videoUrlKeys : List String := ["video_url", "videoUrl", "url", "mp4Url", "mp4_url", "videoPath"]

mutual

/-- The nested `find_url` helper of `monitor_and_download_mp4` (main.py lines
646-660): a dict is probed for the candidate keys first (any present value is
returned, even falsy, preempting recursion below that dict); otherwise values
are searched in order, keeping only truthy results. -/
def find_url (keys : List String) : Json → Option Json
  | Json.obj fields =>
    match firstPresentKey keys fields with
    | some v => some v
    | none => urlSearchFields keys fields
  | Json.arr items => urlSearchList keys items
  | _ => none
termination_by j => sizeOf j

def urlSearchFields (keys : List String) : List (String × Json) → Option Json
  | [] => none
  | (_, v) :: rest =>
    match find_url keys v with
    | some r => if truthy r then some r else urlSearchFields keys rest
    | none => urlSearchFields keys rest
termination_by fs => sizeOf fs

def urlSearchList (keys : List String) : List Json → Option Json
  | [] => none
  | v :: rest =>
    match find_url keys v with
    | some r => if truthy r then some r else urlSearchList keys rest
    | none => urlSearchList keys rest
termination_by xs => sizeOf xs

end

/-!
Downloaders

A download attempt is abstracted as what it produces: `none` for a
transport-level failure (exception / non-2xx raised by `raise_for_status`),
`some s` for a completed response whose bytes, written to disk, give a local
file of size `s`.  The environment `attempts` gives the outcome of each
successive attempt (0-indexed).
-/

/-- The retry loop of `MusicGenerator.download_music` (main.py lines 689-742):
`i` is the current value of `retry_count`, the fuel is `max_retries - i`.
A completed attempt is accepted only when the resulting file is non-empty
(line 727); an empty file or an exception falls through to the retry. -/
def downloadMusicLoop (attempts : Nat → Option Nat) : Nat → Nat → Bool
  | _, 0 => false
  | i, fuel + 1 =>
    match attempts i with
    | some s => if s > 0 then true else downloadMusicLoop attempts (i + 1) fuel
    | none => downloadMusicLoop attempts (i + 1) fuel

/-- `MusicGenerator.download_music` (main.py lines 689-742). -/
def download_music (attempts : Nat → Option Nat) (maxRetries : Nat) : Bool :=
  downloadMusicLoop attempts 0 maxRetries

/-- The retry loop of `MusicGenerator.download_mp4` (main.py lines 506-550):
any completed response returns `True` immediately (lines 535-536) — the size
of the written file is never checked — and only a transport exception
retries. -/
def downloadMp4Loop (attempts : Nat → Option Nat) : Nat → Nat → Bool
  | _, 0 => false
  | i, fuel + 1 =>
    match attempts i with
    | some _ => true
    | none => downloadMp4Loop attempts (i + 1) fuel

/-- `MusicGenerator.download_mp4` (main.py lines 506-550). -/
def download_mp4 (attempts : Nat → Option Nat) (maxRetries : Nat) : Bool :=
  downloadMp4Loop attempts 0 maxRetries

/-!
Status-endpoint resolution

The HTTP layer is an environment `http : String → Option (Nat × Json)` from
endpoint URL to `none` (a `requests` exception) or `some (statusCode, body)`
(a completed response with parsed JSON body).
-/

def SUNO_API_BASE_URL : String := "https://apibox.erweima.ai/api/v1"

/-- The primary audio status endpoint (main.py line 286). -/
def audioPrimaryEndpoint (taskId : String) : String :=
  SUNO_API_BASE_URL ++ "/generate/record-info?taskId=" ++ taskId

/-- The alternate audio status endpoints, in order (main.py lines 296-301). -/
def audioAlternateEndpoints (taskId : String) : List String :=
  [SUNO_API_BASE_URL ++ "/generate/status?taskId=" ++ taskId,
   SUNO_API_BASE_URL ++ "/generate/result?taskId=" ++ taskId,
   SUNO_API_BASE_URL ++ "/task/" ++ taskId,
   SUNO_API_BASE_URL ++ "/generate/" ++ taskId]

/-- The alternate-endpoint loop of `check_generation_status` (main.py lines
303-309): the whole loop sits inside the single `try`, so an exception at any
alternate aborts resolution with `None`; a 200 returns the body; ANY other
completed status — 404 or not — just moves on to the next alternate. -/
def audioAlternatesLoop (http : String → Option (Nat × Json)) : List String → Option Json
  | [] => none
  | e :: rest =>
    match http e with
    | none => none
    | some (c, j) => if c == 200 then some j else audioAlternatesLoop http rest

/-- `MusicGenerator.check_generation_status` (main.py lines 275-316): the
primary endpoint first; on its 200 the body is returned; on any completed
non-200 primary response the alternates are tried in order, stopping at the
first 200; a transport exception anywhere returns `None`. -/
def check_generation_status (http : String → Option (Nat × Json)) (taskId : String) :
    Option Json :=
  match http (audioPrimaryEndpoint taskId) with
  | none => none
  | some (c, j) =>
    if c == 200 then some j
    else audioAlternatesLoop http (audioAlternateEndpoints taskId)

/-- The mp4 status endpoints, in order (main.py lines 472-476). -/
def mp4StatusEndpoints (taskId : String) : List String :=
  [SUNO_API_BASE_URL ++ "/mp4/record-info?taskId=" ++ taskId,
   SUNO_API_BASE_URL ++ "/mp4/generate/record-info?taskId=" ++ taskId,
   SUNO_API_BASE_URL ++ "/mp4/status?taskId=" ++ taskId]

/-- The endpoint loop of `check_mp4_status` (main.py lines 478-504): each
endpoint has its own `try`, so an exception moves on to the next endpoint;
a 200 returns the body; a completed non-200, non-404 response STOPS resolution
with `None` (lines 494-499); a 404 moves on to the next endpoint. -/
def mp4StatusLoop (http : String → Option (Nat × Json)) : List String → Option Json
  | [] => none
  | e :: rest =>
    match http e with
    | none => mp4StatusLoop http rest
    | some (c, j) =>
      if c == 200 then some j
      else if c != 404 then none
      else mp4StatusLoop http rest

/-- `MusicGenerator.check_mp4_status` (main.py lines 461-504). -/
def check_mp4_status (http : String → Option (Nat × Json)) (taskId : String) : Option Json :=
  mp4StatusLoop http (mp4StatusEndpoints taskId)

/-!
Video job submission (`generate_mp4`)

The POST to `/mp4/generate` is abstracted as its outcome: an exception, or a
completed response with a status code and a body that either parsed as JSON or
did not.  `generate_mp4` returns `some fields` for the dictionary the Python
returns; `none` models an uncaught exception escaping the function (the
`resp_json["data"]["taskId"] = task_id` assignment at main.py line 418 raises
`TypeError` when the `data` value is not a dict, and nothing catches it).
-/

inductive HttpOutcome where
  | exn (msg : String)
  | resp (status : Nat) (body : Option Json)

/-- Python dict assignment `d[k] = v` on an association list: replace the
first binding of `k` in place, or append a new binding at the end. -/
def setField : List (String × Json) → String → Json → List (String × Json)
  | [], k, v => [(k, v)]
  | (k', v') :: rest, k, v =>
    if k' == k then (k, v) :: rest else (k', v') :: setField rest k v

/-- The error dictionaries `generate_mp4` builds:
`{"success": False, "error": ..., "error_code": ..., "data": ...}`. -/
def mp4ErrorResult (err : Json) (code : Json) (data : Json) : List (String × Json) :=
  [("success", Json.bool false), ("error", err), ("error_code", code), ("data", data)]

/-- `MusicGenerator.generate_mp4` (main.py lines 329-459), as a function of the
HTTP outcome of its single POST. -/
def generate_mp4 (http : HttpOutcome) : Option (List (String × Json)) :=
  match http with
  | HttpOutcome.exn m =>
    some (mp4ErrorResult (Json.str m) (Json.str "NETWORK_ERROR") (Json.obj []))
  | HttpOutcome.resp _ none =>
    some (mp4ErrorResult (Json.str "Invalid JSON response") (Json.str "PARSE_ERROR")
      (Json.obj []))
  | HttpOutcome.resp st (some body) =>
    if st == 200 then
      match body with
      | Json.obj bf =>
        let codeIs200 : Bool :=
          match bf.lookup "code" with
          | some v => jeqNum v 200
          | none => false
        if !codeIs200 then
          some (mp4ErrorResult ((bf.lookup "msg").getD (Json.str "Unknown error"))
            ((bf.lookup "code").getD Json.null) ((bf.lookup "data").getD (Json.obj [])))
        else
          let fs1 := setField bf "success" (Json.bool true)
          let fs2 := if (fs1.lookup "data").isSome then fs1 else fs1 ++ [("data", Json.obj [])]
          let t1 : Option Json :=
            match fs2.lookup "data" with
            | some (Json.obj d) => d.lookup "taskId"
            | _ => none
          if truthyOpt t1 then some fs2
          else
            match fs2.lookup "taskId" with
            | some t =>
              match fs2.lookup "data" with
              | some (Json.obj d) => some (setField fs2 "data" (Json.obj (setField d "taskId" t)))
              | _ => none
            | none => some fs2
      | _ => some [("data", body), ("success", Json.bool true)]
    else if st == 401 then
      some (mp4ErrorResult
        (Json.str "Authentication error: You do not have access permissions")
        (Json.num 401) (Json.obj []))
    else
      match body with
      | Json.obj bf =>
        if (bf.lookup "code").isSome && (bf.lookup "msg").isSome then
          some (mp4ErrorResult ((bf.lookup "msg").getD Json.null)
            ((bf.lookup "code").getD Json.null) (Json.obj []))
        else some (mp4ErrorResult (Json.str "Unknown error") (Json.num (st : Int)) (Json.obj []))
      | _ => some (mp4ErrorResult (Json.str "Unknown error") (Json.num (st : Int)) (Json.obj []))

/-!
The polling monitors

Both monitors are driven by a script: `script i` is what the status-check call
of cycle `i` returned (`none` for "could not retrieve task details": a
transport failure or all endpoints failing; `some td` for a parsed JSON dict),
and `dl i` is whether the download attempted on cycle `i`, if any, succeeds.
Every observable action is recorded in an event trace, so that "how many
status-endpoint calls were made" and "when was the task id persisted" are
provable facts about a run.
-/

inductive Ev where
  | persistTask
  | check
  | download
  | mp4Submit
  | persistMp4
  | mp4Check
  | mp4Download
  | lyrics
  | submitAudio
  | reportMissingSuno
  | reportMissingAnthropic
  | reportNoMp4Sidecar
  | reportNoTaskSidecar
  | reportNoTheme
deriving DecidableEq, Repr

inductive Outcome where
  | succeeded
  | failed
  | exhausted
deriving DecidableEq, Repr

/-- `status == "SUCCESS" or status == "FIRST_SUCCESS"` (main.py line 833). -/
def audioSuccessStatus : Option Json → Bool
  | some (Json.str "SUCCESS") => true
  | some (Json.str "FIRST_SUCCESS") => true
  | _ => false

/-- `status in ["CREATE_TASK_FAILED", "GENERATE_AUDIO_FAILED",
"CALLBACK_EXCEPTION", "SENSITIVE_WORD_ERROR"]` (main.py line 885). -/
def audioFailStatus : Option Json → Bool
  | some (Json.str "CREATE_TASK_FAILED") => true
  | some (Json.str "GENERATE_AUDIO_FAILED") => true
  | some (Json.str "CALLBACK_EXCEPTION") => true
  | some (Json.str "SENSITIVE_WORD_ERROR") => true
  | _ => false

/-- `status in ["PENDING", "TEXT_SUCCESS"]` (main.py line 889). -/
def audioPendingStatus : Option Json → Bool
  | some (Json.str "PENDING") => true
  | some (Json.str "TEXT_SUCCESS") => true
  | _ => false

/-- The status extraction of `monitor_and_download` (main.py lines 793-822):
`data["status"]` when `data` is a dict and the value truthy, else the
top-level `status` when truthy, else the recursive `find_status`. -/
def audioStatusOf (td : List (String × Json)) : Option Json :=
  let data := (td.lookup "data").getD (Json.obj [])
  let s1 : Option Json :=
    match data with
    | Json.obj d => d.lookup "status"
    | _ => none
  let s2 := if truthyOpt s1 then s1 else td.lookup "status"
  if truthyOpt s2 then s2 else find_status (Json.obj td)

/-- The audio poller's terminal application-code test (main.py lines 779-791):
`api_code and api_code != 200` and then `api_code not in [200, 404]`. -/
def codeTerminalAudio (c : Option Json) : Bool :=
  match c with
  | some v => truthy v && !(jeqNum v 200) && !(jeqNum v 404)
  | none => false

/-- The video poller's terminal application-code test (main.py lines 584-588):
`api_code and api_code != 200` — note no 404 exemption here. -/
def codeTerminalMp4 (c : Option Json) : Bool :=
  match c with
  | some v => truthy v && !(jeqNum v 200)
  | none => false

/-- `status == "complete" or status == "SUCCESS" or status == "FIRST_SUCCESS"`
(main.py line 625). -/
def mp4SuccessStatus : Option Json → Bool
  | some (Json.str "complete") => true
  | some (Json.str "SUCCESS") => true
  | some (Json.str "FIRST_SUCCESS") => true
  | _ => false

/-- `status == "failed" or status == "FAILED" or status == "ERROR"`
(main.py line 673). -/
def mp4FailStatus : Option Json → Bool
  | some (Json.str "failed") => true
  | some (Json.str "FAILED") => true
  | some (Json.str "ERROR") => true
  | _ => false

/-- `data = task_details.get("data", {})`, then the direct-response fallback
`if not data ... if "taskId" in task_details and "musicId" in task_details:
data = task_details` (main.py lines 592-598).  When the `data` value is a
truthy non-dict the Python raises `AttributeError` on the later
`data.get(...)`; the model returns `[]` there and the theorems about the video
poller assume `WellShapedMp4`, which rules that shape out. -/
def mp4DataOf (td : List (String × Json)) : List (String × Json) :=
  match td.lookup "data" with
  | some (Json.obj d) =>
    if d.isEmpty then
      if (td.lookup "taskId").isSome && (td.lookup "musicId").isSome then td else d
    else d
  | none =>
    if (td.lookup "taskId").isSome && (td.lookup "musicId").isSome then td else []
  | some _ => []

/-- A video status response whose `data` field, if present, is a JSON object —
the shapes on which the model is faithful to the Python. -/
def WellShapedMp4 (td : List (String × Json)) : Prop :=
  td.lookup "data" = none ∨ ∃ d, td.lookup "data" = some (Json.obj d)

/-- The status extraction of `monitor_and_download_mp4` (main.py lines
600-606): `data.get("status")`, with a truthy `completeTime` and no truthy
status coerced to `"complete"`. -/
def mp4StatusOf (td : List (String × Json)) : Option Json :=
  let data := mp4DataOf td
  let status := data.lookup "status"
  if truthyOpt (data.lookup "completeTime") && !(truthyOpt status) then some (Json.str "complete")
  else status

/-- The relative-path fixup of main.py lines 636-642. -/
def prefixVideoUrl (s : String) : String :=
  if s.startsWith "/" then "https://apiboxfiles.erweima.ai" ++ s
  else "https://apiboxfiles.erweima.ai/" ++ s

/-- The video-URL extraction of the mp4 success branch (main.py lines
628-662): the field probe over `data` (any present value, even falsy), then
the relative-path fixup on a truthy string value, then — only when the probed
value is falsy — the recursive `find_url` over the whole response. -/
def mp4VideoUrl (td : List (String × Json)) : Option Json :=
  let data := mp4DataOf td
  let v0 := firstPresentKey videoUrlKeys data
  let v1 :=
    match v0 with
    | some (Json.str s) =>
      if s != "" && !(s.startsWith "http") then some (Json.str (prefixVideoUrl s)) else v0
    | _ => v0
  if truthyOpt v1 then v1 else find_url videoUrlKeys (Json.obj td)

/-- The `while checks < max_checks` loop shared by both monitors
(main.py lines 573-683 and 768-893): `step i` is the body of cycle `i`
(`none` in its first component meaning "continue to the next cycle", `some o`
meaning "return with outcome `o`"); `i` is the current cycle index and the
fuel is the number of cycles left.  Running out of fuel is the
`Exceeded maximum checks` exit. -/
def pollLoop (step : Nat → Option Outcome × List Ev) : Nat → Nat → Outcome × List Ev
  | _, 0 => (Outcome.exhausted, [])
  | i, fuel + 1 =>
    match step i with
    | (some o, evs) => (o, evs)
    | (none, evs) =>
      let r := pollLoop step (i + 1) fuel
      (r.1, evs ++ r.2)

/-- One cycle of `monitor_and_download_mp4` (main.py lines 573-683): `none`
in the first component means the loop continues to the next cycle, `some o`
means the function returns with that outcome. -/
def stepMp4 (resp : Option (List (String × Json))) (dl : Bool) : Option Outcome × List Ev :=
  match resp with
  | none => (none, [Ev.mp4Check])
  | some td =>
    if td.isEmpty then (none, [Ev.mp4Check])
    else if codeTerminalMp4 (td.lookup "code") then (some Outcome.failed, [Ev.mp4Check])
    else
      let status := mp4StatusOf td
      if mp4SuccessStatus status then
        if truthyOpt (mp4VideoUrl td) then
          (some (if dl then Outcome.succeeded else Outcome.failed),
            [Ev.mp4Check, Ev.mp4Download])
        else (some Outcome.failed, [Ev.mp4Check])
      else if mp4FailStatus status then (some Outcome.failed, [Ev.mp4Check])
      else (none, [Ev.mp4Check])

/-- `MusicGenerator.monitor_and_download_mp4` (main.py lines 552-687): the mp4
task id is written to `last_mp4_task_id.txt` at entry (lines 569-570), before
the first status check. -/
def monitor_and_download_mp4 (mscript : Nat → Option (List (String × Json)))
    (mdl : Nat → Bool) (maxChecks : Nat) : Outcome × List Ev :=
  let r := pollLoop (fun i => stepMp4 (mscript i) (mdl i)) 0 maxChecks
  (r.1, Ev.persistMp4 :: r.2)

/-- The mp4 sub-chain of the audio success branch (main.py lines 850-878):
submit the video job, and when the submission reports success with a truthy
task id, persist it (line 861) and monitor it (line 868, with the outer
`max_checks`).  The whole block is wrapped in `try/except Exception`
(line 876), so a crash inside `generate_mp4` or a non-dict `data` in its
result just falls out of the block. -/
def mp4ChainEvents (msub : HttpOutcome) (mscript : Nat → Option (List (String × Json)))
    (mdl : Nat → Bool) (mp4Max : Nat) : List Ev :=
  Ev.mp4Submit ::
    match generate_mp4 msub with
    | none => []
    | some resp =>
      if truthyOpt ((resp.lookup "success").getD Json.null) then
        match resp.lookup "data" with
        | some (Json.obj d) =>
          match d.lookup "taskId" with
          | some t =>
            if truthy t then Ev.persistMp4 :: (monitor_and_download_mp4 mscript mdl mp4Max).2
            else []
          | none => []
        | _ => []
      else []

/-- One cycle of `monitor_and_download` (main.py lines 768-893). -/
def stepAudio (gm : Bool) (msub : HttpOutcome) (mscript : Nat → Option (List (String × Json)))
    (mdl : Nat → Bool) (mp4Max : Nat) (resp : Option (List (String × Json))) (dl : Bool) :
    Option Outcome × List Ev :=
  match resp with
  | none => (none, [Ev.check])
  | some td =>
    if td.isEmpty then (none, [Ev.check])
    else if codeTerminalAudio (td.lookup "code") then (some Outcome.failed, [Ev.check])
    else
      let status := audioStatusOf td
      if audioSuccessStatus status then
        if truthyOpt (find_audio_url (Json.obj td)) then
          let chain :=
            if gm && truthyOpt (find_audio_id (Json.obj td)) && dl then
              mp4ChainEvents msub mscript mdl mp4Max
            else []
          (some (if dl then Outcome.succeeded else Outcome.failed),
            Ev.check :: Ev.download :: chain)
        else (some Outcome.failed, [Ev.check])
      else if audioFailStatus status then (some Outcome.failed, [Ev.check])
      else (none, [Ev.check])

/-- `MusicGenerator.monitor_and_download` (main.py lines 744-897): the audio
task id is written to `last_task_id.txt` at entry (lines 762-765), before the
first status check; the nested mp4 monitor, when reached, runs with this
monitor's own `max_checks`. -/
def monitor_and_download (gm : Bool) (msub : HttpOutcome)
    (mscript : Nat → Option (List (String × Json))) (mdl : Nat → Bool)
    (script : Nat → Option (List (String × Json))) (dl : Nat → Bool) (maxChecks : Nat) :
    Outcome × List Ev :=
  let r := pollLoop (fun i => stepAudio gm msub mscript mdl maxChecks (script i) (dl i))
    0 maxChecks
  (r.1, Ev.persistTask :: r.2)

/-!
The `main` dispatch

Only the parts of `main` (main.py lines 900-1065) that decide which network
calls happen are modelled; the output is the event trace of a process
invocation.  `argparse` with `nargs='?'` and `const=True` gives three shapes
for `--check-task` / `--check-mp4-task`: absent (`none`), bare flag
(`some none`, the Python `True`), and an explicit id (`some (some s)`).
-/

structure CliArgs where
  theme : Option String
  instrumental : Bool
  generateMp4 : Bool
  checkTask : Option (Option String)
  checkMp4Task : Option (Option String)
  checks : Nat

/-- Python truthiness of a `nargs='?', const=True` argument: `None` is falsy,
`True` is truthy, a string is truthy unless empty. -/
def argTruthy : Option (Option String) → Bool
  | none => false
  | some none => true
  | some (some s) => s != ""

/-- The environment of one process invocation: the scripted outcomes of every
network interaction `main` can reach. -/
structure RunEnv where
  audioScript : Nat → Option (List (String × Json))
  audioDl : Nat → Bool
  mp4Script : Nat → Option (List (String × Json))
  mp4Dl : Nat → Bool
  mp4Submit : HttpOutcome
  genMusicResult : Option Json

/-- The task-id extraction of `main` (main.py lines 1025-1054):
`data.taskId` first, then the top-level `taskId`, then the recursive
`find_task_id`, all inside `try/except (KeyError, TypeError, AttributeError)`.
Outer `none` models the caught exception (a non-dict response or a
non-dict `data`), after which `main` returns. -/
def extractTaskIdMain : Json → Option (Option Json)
  | Json.obj fs =>
    let chain : Option Json → Option Json := fun t1 =>
      if truthyOpt t1 then t1
      else
        let t2 := fs.lookup "taskId"
        if truthyOpt t2 then t2 else find_task_id (Json.obj fs)
    match fs.lookup "data" with
    | some (Json.obj d) => some (chain (d.lookup "taskId"))
    | some _ => none
    | none => some (chain none)
  | _ => none

/-- Events that are network requests (status checks, submissions, downloads,
the lyrics call); the persist and report events are local. -/
def networkEv : Ev → Bool
  | Ev.check => true
  | Ev.download => true
  | Ev.mp4Submit => true
  | Ev.mp4Check => true
  | Ev.mp4Download => true
  | Ev.lyrics => true
  | Ev.submitAudio => true
  | _ => false

/-- `main` (main.py lines 900-1065) as the event trace of one invocation.
`sunoKey` / `anthropicKey` say whether the respective environment variables
are set; `mp4Sidecar` / `taskSidecar` are the contents of
`last_mp4_task_id.txt` / `last_task_id.txt` (`none` when the file does not
exist, so that reading it raises `FileNotFoundError`). -/
def mainRun (sunoKey anthropicKey : Bool) (args : CliArgs)
    (mp4Sidecar taskSidecar : Option String) (env : RunEnv) : List Ev :=
  if !sunoKey then [Ev.reportMissingSuno]
  else if !args.instrumental && !anthropicKey then [Ev.reportMissingAnthropic]
  else if argTruthy args.checkMp4Task then
    match args.checkMp4Task with
    | some none =>
      match mp4Sidecar with
      | none => [Ev.reportNoMp4Sidecar]
      | some _ => (monitor_and_download_mp4 env.mp4Script env.mp4Dl args.checks).2
    | _ => (monitor_and_download_mp4 env.mp4Script env.mp4Dl args.checks).2
  else if argTruthy args.checkTask then
    match args.checkTask with
    | some none =>
      match taskSidecar with
      | none => [Ev.reportNoTaskSidecar]
      | some _ =>
        (monitor_and_download args.generateMp4 env.mp4Submit env.mp4Script env.mp4Dl
          env.audioScript env.audioDl args.checks).2
    | _ =>
      (monitor_and_download args.generateMp4 env.mp4Submit env.mp4Script env.mp4Dl
        env.audioScript env.audioDl args.checks).2
  else
    match args.theme with
    | none => [Ev.reportNoTheme]
    | some _ =>
      (if !args.instrumental then [Ev.lyrics] else []) ++ [Ev.submitAudio] ++
        match env.genMusicResult with
        | none => []
        | some j =>
          match extractTaskIdMain j with
          | none => []
          | some t =>
            if truthyOpt t then
              (monitor_and_download args.generateMp4 env.mp4Submit env.mp4Script env.mp4Dl
                env.audioScript env.audioDl args.checks).2
            else []

/-- The concrete HTTP environment refuting claim C5: the audio primary
endpoint answers 500 (a non-404 error), the first audio alternate answers
200. -/
def httpC5 : String → Option (Nat × Json) := fun u =>
  if u == audioPrimaryEndpoint "t" then some (500, Json.null)
  else if u == SUNO_API_BASE_URL ++ "/generate/status?taskId=t" then some (200, Json.str "ok")
  else some (404, Json.null)

/-- A `generate_mp4` result that is a dictionary carrying a boolean
`success` key and a `data` key — the shape the claim asserts for every
outcome path. -/
def hasSuccessAndData (r : Option (List (String × Json))) : Prop :=
  ∃ fs, r = some fs ∧ (∃ b, fs.lookup "success" = some (Json.bool b)) ∧
    (fs.lookup "data").isSome = true

/-- The provider response on which `generate_mp4` crashes: HTTP 200 with body
`{"code": 200, "data": "x", "taskId": "t"}`.  The function reaches
`resp_json["data"]["taskId"] = task_id` (main.py line 418) with `data` bound
to the string `"x"` and raises an uncaught `TypeError`. -/
def mp4CrashBody : Json :=
  Json.obj [("code", Json.num 200), ("data", Json.str "x"), ("taskId", Json.str "t")]

/-- The response refuting claim C1 as stated: the `audio_url` field is present
at two probe locations — at `data.audio_url` with an EMPTY value, and at a
nested position (`z.audioUrl`) with a non-empty value. -/
def audioCexResponse : Json :=
  Json.obj [("data", Json.obj [("audio_url", Json.str "")]),
    ("z", Json.obj [("audioUrl", Json.str "nested.mp3")])]

def audioTerminalStatusResp (resp : Option (List (String × Json))) : Prop :=
  ∃ td, resp = some td ∧
    (audioSuccessStatus (audioStatusOf td) = true ∨ audioFailStatus (audioStatusOf td) = true)

def audioFailStatusResp (resp : Option (List (String × Json))) : Prop :=
  ∃ td, resp = some td ∧ audioFailStatus (audioStatusOf td) = true

def audioPendingResp (resp : Option (List (String × Json))) : Prop :=
  ∃ td, resp = some td ∧ audioPendingStatus (audioStatusOf td) = true ∧
    codeTerminalAudio (td.lookup "code") = false

def mp4TerminalStatusResp (resp : Option (List (String × Json))) : Prop :=
  ∃ td, resp = some td ∧ WellShapedMp4 td ∧
    (mp4SuccessStatus (mp4StatusOf td) = true ∨ mp4FailStatus (mp4StatusOf td) = true)

def mp4FailStatusResp (resp : Option (List (String × Json))) : Prop :=
  ∃ td, resp = some td ∧ WellShapedMp4 td ∧ mp4FailStatus (mp4StatusOf td) = true

/-!
Theorems
-/

theorem downloadMusicLoop_true_iff (attempts : Nat → Option Nat) :
    ∀ fuel i, downloadMusicLoop attempts i fuel = true ↔
      ∃ k, k < fuel ∧ ∃ s, attempts (i + k) = some s ∧ 0 < s := by
  intro fuel
  induction fuel with
  | zero => intro i; simp [downloadMusicLoop]
  | succ n ih =>
    intro i
    unfold downloadMusicLoop
    rcases h : attempts i with _ | s
    · simp only []
      rw [ih (i + 1)]
      constructor
      · rintro ⟨k, hk, s, hs, hpos⟩
        exact ⟨k + 1, by omega, s, by rwa [show i + (k + 1) = i + 1 + k by omega], hpos⟩
      · rintro ⟨k, hk, s, hs, hpos⟩
        rcases k with _ | k
        · rw [show i + 0 = i by omega] at hs; rw [hs] at h; cases h
        · exact ⟨k, by omega, s, by rwa [show i + 1 + k = i + (k + 1) by omega], hpos⟩
    · simp only []
      by_cases hp : s > 0
      · simp only [hp, if_true, true_iff]
        exact ⟨0, by omega, s, by simpa using h, hp⟩
      · simp only [hp, if_false]
        rw [ih (i + 1)]
        constructor
        · rintro ⟨k, hk, t, ht, hposT⟩
          exact ⟨k + 1, by omega, t, by rwa [show i + (k + 1) = i + 1 + k by omega], hposT⟩
        · rintro ⟨k, hk, t, ht, hposT⟩
          rcases k with _ | k
          · rw [show i + 0 = i by omega] at ht; rw [ht] at h
            cases h; omega
          · exact ⟨k, by omega, t, by rwa [show i + 1 + k = i + (k + 1) by omega], hposT⟩

theorem downloadMp4Loop_true_iff (attempts : Nat → Option Nat) :
    ∀ fuel i, downloadMp4Loop attempts i fuel = true ↔
      ∃ k, k < fuel ∧ (attempts (i + k)).isSome = true := by
  intro fuel
  induction fuel with
  | zero => intro i; simp [downloadMp4Loop]
  | succ n ih =>
    intro i
    unfold downloadMp4Loop
    rcases h : attempts i with _ | s
    · simp only []
      rw [ih (i + 1)]
      constructor
      · rintro ⟨k, hk, hs⟩
        exact ⟨k + 1, by omega, by rwa [show i + (k + 1) = i + 1 + k by omega]⟩
      · rintro ⟨k, hk, hs⟩
        rcases k with _ | k
        · rw [show i + 0 = i by omega] at hs; rw [h] at hs; cases hs
        · exact ⟨k, by omega, by rwa [show i + 1 + k = i + (k + 1) by omega]⟩
    · simp only [true_iff]
      exact ⟨0, by omega, by simp [show i + 0 = i by omega, h]⟩

/-- Claim C4 (amended): the audio downloader `download_music` succeeds exactly
when some attempt within the retry bound completes with a NON-empty file — a
zero-byte completion is treated as failure and retried — while the video
downloader `download_mp4` succeeds as soon as any attempt completes at all:
it never checks the written file's size, so a zero-byte completion is accepted
as success, not retried. -/
theorem C4_zero_byte_retry :
    (∀ attempts maxRetries, download_music attempts maxRetries = true ↔
      ∃ k, k < maxRetries ∧ ∃ s, attempts k = some s ∧ 0 < s)
    ∧ (∀ attempts maxRetries, download_mp4 attempts maxRetries = true ↔
      ∃ k, k < maxRetries ∧ (attempts k).isSome = true) := by
  constructor
  · intro attempts maxRetries
    rw [download_music, downloadMusicLoop_true_iff]
    simp
  · intro attempts maxRetries
    rw [download_mp4, downloadMp4Loop_true_iff]
    simp

/-- Claim C4, counterexample to the claim as stated: against a provider that
always completes with HTTP 200 but a zero-byte body, the video downloader
`download_mp4` returns success on the first attempt instead of treating the
attempt as a failure and retrying, while the audio downloader `download_music`
retries every such attempt and fails. -/
theorem C4_counterexample :
    download_mp4 (fun _ => some 0) 5 = true ∧ download_music (fun _ => some 0) 5 = false := by
  constructor <;> rfl

/-- Claim C4, witness: a run where attempt 0 yields an empty file and attempt 1
a non-empty one succeeds for the audio downloader, by the amended theorem. -/
theorem C4_witness :
    download_music (fun i => if i == 0 then some 0 else some 7) 5 = true := by
  exact (C4_zero_byte_retry.1 (fun i => if i == 0 then some 0 else some 7) 5).mpr
    ⟨1, by omega, 7, rfl, by omega⟩

/-- Claim C5, counterexample to the claim as stated: on a non-404 error (500)
from its primary endpoint, the AUDIO status resolver `check_generation_status`
does NOT stop — it falls through to the alternate endpoints and returns the
first alternate's 200 body. -/
theorem C5_counterexample :
    httpC5 (audioPrimaryEndpoint "t") = some (500, Json.null) ∧
    check_generation_status httpC5 "t" = some (Json.str "ok") := by
  constructor <;> rfl

/-- Claim C5 (amended): both resolvers try their primary (first) canonical
endpoint first and stop at the first endpoint answering HTTP 200.  The VIDEO
resolver `check_mp4_status` stops resolution (returning nothing for the cycle)
as soon as an attempted endpoint answers a completed non-200, non-404 status;
the AUDIO resolver `check_generation_status` instead falls through to the
remaining alternate endpoints on ANY completed non-200 primary response,
including non-404 errors, and returns the first 200 body found there. -/
theorem C5_resolution :
    (∀ http taskId j, http (audioPrimaryEndpoint taskId) = some (200, j) →
      check_generation_status http taskId = some j)
    ∧ (∀ http taskId c b j, http (audioPrimaryEndpoint taskId) = some (c, b) → c ≠ 200 →
      http (SUNO_API_BASE_URL ++ "/generate/status?taskId=" ++ taskId) = some (200, j) →
      check_generation_status http taskId = some j)
    ∧ (∀ http taskId j,
      http (SUNO_API_BASE_URL ++ "/mp4/record-info?taskId=" ++ taskId) = some (200, j) →
      check_mp4_status http taskId = some j)
    ∧ (∀ http taskId c b,
      http (SUNO_API_BASE_URL ++ "/mp4/record-info?taskId=" ++ taskId) = some (c, b) →
      c ≠ 200 → c ≠ 404 → check_mp4_status http taskId = none) := by
  refine ⟨?_, ?_, ?_, ?_⟩
  · intro http taskId j h
    simp [check_generation_status, h]
  · intro http taskId c b j h1 h2 h3
    simp [check_generation_status, h1, h2, audioAlternatesLoop, audioAlternateEndpoints, h3]
  · intro http taskId j h
    simp [check_mp4_status, mp4StatusLoop, mp4StatusEndpoints, h]
  · intro http taskId c b h1 h2 h3
    simp [check_mp4_status, mp4StatusLoop, mp4StatusEndpoints, h1, h2, h3]

/-- Claim C5, witness: an environment answering 200 with body `null`
everywhere makes both resolvers return that body from their first endpoint,
by the amended theorem. -/
theorem C5_witness :
    check_generation_status (fun _ => some (200, Json.null)) "x" = some Json.null ∧
    check_mp4_status (fun _ => some (200, Json.null)) "x" = some Json.null := by
  exact ⟨C5_resolution.1 (fun _ => some (200, Json.null)) "x" Json.null rfl,
    C5_resolution.2.2.1 (fun _ => some (200, Json.null)) "x" Json.null rfl⟩

/-- Claim C10: FALSE of the code — on the application-success path with a
non-dict `data` value and a root-level `taskId`, `generate_mp4` raises an
uncaught `TypeError` (modelled by `none`) instead of returning a dictionary;
on the network-exception, non-JSON-body and HTTP-401 paths it does return a
dictionary with a boolean `success` and a `data` key, and a `requests`
exception is never propagated. -/
theorem C10_generate_mp4_crash :
    generate_mp4 (HttpOutcome.resp 200 (some mp4CrashBody)) = none
    ∧ (∀ m, hasSuccessAndData (generate_mp4 (HttpOutcome.exn m)))
    ∧ (∀ st, hasSuccessAndData (generate_mp4 (HttpOutcome.resp st none)))
    ∧ (∀ b, hasSuccessAndData (generate_mp4 (HttpOutcome.resp 401 (some b)))) := by
  refine ⟨rfl, ?_, ?_, ?_⟩
  · intro m
    exact ⟨_, rfl, ⟨false, rfl⟩, rfl⟩
  · intro st
    exact ⟨_, rfl, ⟨false, rfl⟩, rfl⟩
  · intro b
    exact ⟨_, rfl, ⟨false, rfl⟩, rfl⟩

/-- Claim C1, counterexample to the claim as stated: on `audioCexResponse`,
`find_audio_url` returns the EMPTY string found at the `data.audio_url` probe
— not the first NON-empty match in probe order, which the recursive fallback
over the same fields (third conjunct) would have found at `z.audioUrl`. -/
theorem C1_counterexample :
    find_audio_url audioCexResponse = some (Json.str "") ∧
    truthy (Json.str "") = false ∧
    audioUrlSearchFields [("data", Json.obj [("audio_url", Json.str "")]),
      ("z", Json.obj [("audioUrl", Json.str "nested.mp3")])] = some (Json.str "nested.mp3") := by
  refine ⟨?_, rfl, ?_⟩
  · simp [audioCexResponse, find_audio_url, firstTruthyKey, audioUrlKeys, List.lookup, truthy,
      dataAudioUrlProbe]
  · simp [audioUrlSearchFields, find_audio_url, firstTruthyKey, audioUrlKeys, List.lookup,
      truthy, dataAudioUrlProbe]

/-- Claim C1 (amended): extraction follows the probe order — the ordered
top-level candidate keys (matching only present, NON-empty values), then
`data.audio_url` and `data.results[0].audio_url` (whose values are returned
even when empty), and only when all structured probes miss, the recursive
fallback (which re-applies the whole strategy to each nested value in order
and keeps the first non-empty result).  In particular a top-level, non-empty
`audioUrl` beats everything below it.  The same holds for `find_audio_id`
with its key list.  (As stated the claim is false: the `data` probes can
return an empty value even when a non-empty match exists at a lower-priority
probe location — see the counterexample.) -/
theorem C1_probe_order :
    (∀ fields v, fields.lookup "audioUrl" = some v → truthy v = true →
      find_audio_url (Json.obj fields) = some v)
    ∧ (∀ fields v, firstTruthyKey audioUrlKeys fields = none →
      dataAudioUrlProbe fields = some v → find_audio_url (Json.obj fields) = some v)
    ∧ (∀ fields, firstTruthyKey audioUrlKeys fields = none →
      dataAudioUrlProbe fields = none →
      find_audio_url (Json.obj fields) = audioUrlSearchFields fields)
    ∧ (∀ fields v, fields.lookup "audioId" = some v → truthy v = true →
      find_audio_id (Json.obj fields) = some v)
    ∧ (∀ fields v, firstTruthyKey audioIdKeys fields = none →
      dataAudioIdProbe fields = some v → find_audio_id (Json.obj fields) = some v)
    ∧ (∀ fields, firstTruthyKey audioIdKeys fields = none →
      dataAudioIdProbe fields = none →
      find_audio_id (Json.obj fields) = audioIdSearchFields fields) := by
  refine ⟨?_, ?_, ?_, ?_, ?_, ?_⟩
  · intro fields v h ht
    rw [find_audio_url]
    simp [audioUrlKeys, firstTruthyKey, h, ht]
  · intro fields v h1 h2
    rw [find_audio_url, h1, h2]
  · intro fields h1 h2
    rw [find_audio_url, h1, h2]
  · intro fields v h ht
    rw [find_audio_id]
    simp [audioIdKeys, firstTruthyKey, h, ht]
  · intro fields v h1 h2
    rw [find_audio_id, h1, h2]
  · intro fields h1 h2
    rw [find_audio_id, h1, h2]

/-- Claim C1, witness: a response with a truthy top-level `audioUrl` AND a
nested `audio_url` deeper inside yields the top-level value, by the amended
theorem's first conjunct. -/
theorem C1_witness :
    find_audio_url (Json.obj [("audioUrl", Json.str "top.mp3"),
      ("inner", Json.obj [("audio_url", Json.str "deep.mp3")])]) = some (Json.str "top.mp3") := by
  exact C1_probe_order.1 [("audioUrl", Json.str "top.mp3"),
    ("inner", Json.obj [("audio_url", Json.str "deep.mp3")])] (Json.str "top.mp3") rfl rfl

theorem pollLoop_stops (step : Nat → Option Outcome × List Ev) (e : Ev)
    (hone : ∀ i, ((step i).2).count e = 1) :
    ∀ k i fuel o, k < fuel →
      (∀ j, j < k → (step (i + j)).1 = none) →
      (step (i + k)).1 = some o →
      (pollLoop step i fuel).1 = o ∧ ((pollLoop step i fuel).2).count e = k + 1 := by
  intro k
  induction k with
  | zero =>
    intro i fuel o hk _ hterm
    rcases fuel with _ | f
    · omega
    · rw [Nat.add_zero] at hterm
      unfold pollLoop
      rcases hsi : step i with ⟨r, evs⟩
      rw [hsi] at hterm
      simp at hterm
      subst hterm
      have := hone i
      rw [hsi] at this
      simpa using this
  | succ k ih =>
    intro i fuel o hk hnone hterm
    rcases fuel with _ | f
    · omega
    · unfold pollLoop
      rcases hsi : step i with ⟨r, evs⟩
      have h0 : (step (i + 0)).1 = none := hnone 0 (by omega)
      rw [Nat.add_zero, hsi] at h0
      simp at h0
      subst h0
      have ih2 := ih (i + 1) f o (by omega)
        (fun j hj => by
          have := hnone (j + 1) (by omega)
          rwa [show i + (j + 1) = i + 1 + j by omega] at this)
        (by rwa [show i + 1 + k = i + (k + 1) by omega])
      simp only []
      constructor
      · exact ih2.1
      · rw [List.count_append]
        have hc : evs.count e = 1 := by
          have := hone i
          rwa [hsi] at this
        rw [hc, ih2.2]
        omega

theorem pollLoop_all_continue (step : Nat → Option Outcome × List Ev) (e : Ev) :
    ∀ n i, (∀ j, j < n → step (i + j) = (none, [e])) →
      pollLoop step i n = (Outcome.exhausted, List.replicate n e) := by
  intro n
  induction n with
  | zero => intro i _; rfl
  | succ m ih =>
    intro i hall
    unfold pollLoop
    have h0 : step i = (none, [e]) := by
      have := hall 0 (by omega)
      rwa [Nat.add_zero] at this
    rw [h0]
    have ih2 := ih (i + 1) (fun j hj => by
      have := hall (j + 1) (by omega)
      rwa [show i + (j + 1) = i + 1 + j by omega] at this)
    rw [ih2]
    simp [List.replicate_succ]

theorem pollLoop_count_zero (step : Nat → Option Outcome × List Ev) (e : Ev)
    (hz : ∀ i, ((step i).2).count e = 0) :
    ∀ fuel i, ((pollLoop step i fuel).2).count e = 0 := by
  intro fuel
  induction fuel with
  | zero => intro i; rfl
  | succ f ih =>
    intro i
    unfold pollLoop
    rcases hsi : step i with ⟨r, evs⟩
    have hce : evs.count e = 0 := by
      have := hz i
      rwa [hsi] at this
    rcases r with _ | o
    · simp only []
      rw [List.count_append, hce, ih (i + 1)]
    · simpa using hce

theorem fail_not_success (s : Option Json) :
    audioFailStatus s = true → audioSuccessStatus s = false := by
  unfold audioFailStatus
  split
  · intro _; rfl
  · intro _; rfl
  · intro _; rfl
  · intro _; rfl
  · intro h; cases h

theorem pending_not_success (s : Option Json) :
    audioPendingStatus s = true → audioSuccessStatus s = false := by
  unfold audioPendingStatus
  split
  · intro _; rfl
  · intro _; rfl
  · intro h; cases h

theorem pending_not_fail (s : Option Json) :
    audioPendingStatus s = true → audioFailStatus s = false := by
  unfold audioPendingStatus
  split
  · intro _; rfl
  · intro _; rfl
  · intro h; cases h

theorem mp4_fail_not_success (s : Option Json) :
    mp4FailStatus s = true → mp4SuccessStatus s = false := by
  unfold mp4FailStatus
  split
  · intro _; rfl
  · intro _; rfl
  · intro _; rfl
  · intro h; cases h

theorem audioStatusOf_nil : audioStatusOf [] = none := by
  simp [audioStatusOf, List.lookup, truthyOpt, find_status, statusSearchFields, Option.getD,
    truthy]

theorem stepAudio_none (gm : Bool) (msub : HttpOutcome)
    (ms : Nat → Option (List (String × Json))) (md : Nat → Bool) (mm : Nat) (dl : Bool) :
    stepAudio gm msub ms md mm none dl = (none, [Ev.check]) := rfl

theorem stepAudio_terminalCode (gm : Bool) (msub : HttpOutcome)
    (ms : Nat → Option (List (String × Json))) (md : Nat → Bool) (mm : Nat)
    (td : List (String × Json)) (dl : Bool)
    (hc : codeTerminalAudio (td.lookup "code") = true) :
    stepAudio gm msub ms md mm (some td) dl = (some Outcome.failed, [Ev.check]) := by
  have hne : td.isEmpty = false := by
    rcases td with _ | ⟨p, r⟩
    · simp [codeTerminalAudio, List.lookup] at hc
    · rfl
  simp [stepAudio, hne, hc]

theorem stepAudio_failStatus (gm : Bool) (msub : HttpOutcome)
    (ms : Nat → Option (List (String × Json))) (md : Nat → Bool) (mm : Nat)
    (td : List (String × Json)) (dl : Bool)
    (hf : audioFailStatus (audioStatusOf td) = true) :
    stepAudio gm msub ms md mm (some td) dl = (some Outcome.failed, [Ev.check]) := by
  have hne : td.isEmpty = false := by
    rcases td with _ | ⟨p, r⟩
    · rw [audioStatusOf_nil] at hf; cases hf
    · rfl
  have hs : audioSuccessStatus (audioStatusOf td) = false := fail_not_success _ hf
  by_cases hc : codeTerminalAudio (td.lookup "code") = true
  · simp [stepAudio, hne, hc]
  · simp only [Bool.not_eq_true] at hc
    simp [stepAudio, hne, hc, hs, hf]

theorem stepAudio_terminal_isSome (gm : Bool) (msub : HttpOutcome)
    (ms : Nat → Option (List (String × Json))) (md : Nat → Bool) (mm : Nat)
    (td : List (String × Json)) (dl : Bool)
    (h : audioSuccessStatus (audioStatusOf td) = true ∨
      audioFailStatus (audioStatusOf td) = true) :
    ((stepAudio gm msub ms md mm (some td) dl).1).isSome = true := by
  have hne : td.isEmpty = false := by
    rcases td with _ | ⟨p, r⟩
    · rw [audioStatusOf_nil] at h; rcases h with h | h <;> cases h
    · rfl
  by_cases hc : codeTerminalAudio (td.lookup "code") = true
  · simp [stepAudio, hne, hc]
  · simp only [Bool.not_eq_true] at hc
    rcases h with h | h
    · by_cases hu : truthyOpt (find_audio_url (Json.obj td)) = true
      · simp [stepAudio, hne, hc, h, hu]
      · simp only [Bool.not_eq_true] at hu
        simp [stepAudio, hne, hc, h, hu]
    · have hs := fail_not_success _ h
      simp [stepAudio, hne, hc, hs, h]

theorem stepAudio_continue (gm : Bool) (msub : HttpOutcome)
    (ms : Nat → Option (List (String × Json))) (md : Nat → Bool) (mm : Nat)
    (td : List (String × Json)) (dl : Bool)
    (hc : codeTerminalAudio (td.lookup "code") = false)
    (hs : audioSuccessStatus (audioStatusOf td) = false)
    (hf : audioFailStatus (audioStatusOf td) = false) :
    stepAudio gm msub ms md mm (some td) dl = (none, [Ev.check]) := by
  by_cases hE : td.isEmpty = true
  · simp [stepAudio, hE]
  · simp only [Bool.not_eq_true] at hE
    simp [stepAudio, hE, hc, hs, hf]

theorem mp4StatusOf_nil : mp4StatusOf [] = none := rfl

theorem stepMp4_none (dl : Bool) : stepMp4 none dl = (none, [Ev.mp4Check]) := rfl

theorem stepMp4_terminalCode (td : List (String × Json)) (dl : Bool)
    (hc : codeTerminalMp4 (td.lookup "code") = true) :
    stepMp4 (some td) dl = (some Outcome.failed, [Ev.mp4Check]) := by
  have hne : td.isEmpty = false := by
    rcases td with _ | ⟨p, r⟩
    · simp [codeTerminalMp4, List.lookup] at hc
    · rfl
  simp [stepMp4, hne, hc]

theorem stepMp4_failStatus (td : List (String × Json)) (dl : Bool)
    (hf : mp4FailStatus (mp4StatusOf td) = true) :
    stepMp4 (some td) dl = (some Outcome.failed, [Ev.mp4Check]) := by
  have hne : td.isEmpty = false := by
    rcases td with _ | ⟨p, r⟩
    · rw [mp4StatusOf_nil] at hf; cases hf
    · rfl
  have hs : mp4SuccessStatus (mp4StatusOf td) = false := mp4_fail_not_success _ hf
  by_cases hc : codeTerminalMp4 (td.lookup "code") = true
  · simp [stepMp4, hne, hc]
  · simp only [Bool.not_eq_true] at hc
    simp [stepMp4, hne, hc, hs, hf]

theorem stepMp4_terminal_isSome (td : List (String × Json)) (dl : Bool)
    (h : mp4SuccessStatus (mp4StatusOf td) = true ∨ mp4FailStatus (mp4StatusOf td) = true) :
    ((stepMp4 (some td) dl).1).isSome = true := by
  have hne : td.isEmpty = false := by
    rcases td with _ | ⟨p, r⟩
    · rw [mp4StatusOf_nil] at h; rcases h with h | h <;> cases h
    · rfl
  by_cases hc : codeTerminalMp4 (td.lookup "code") = true
  · simp [stepMp4, hne, hc]
  · simp only [Bool.not_eq_true] at hc
    rcases h with h | h
    · by_cases hu : truthyOpt (mp4VideoUrl td) = true
      · simp [stepMp4, hne, hc, h, hu]
      · simp only [Bool.not_eq_true] at hu
        simp [stepMp4, hne, hc, h, hu]
    · have hs := mp4_fail_not_success _ h
      simp [stepMp4, hne, hc, hs, h]

theorem stepMp4_continue (td : List (String × Json)) (dl : Bool)
    (hc : codeTerminalMp4 (td.lookup "code") = false)
    (hs : mp4SuccessStatus (mp4StatusOf td) = false)
    (hf : mp4FailStatus (mp4StatusOf td) = false) :
    stepMp4 (some td) dl = (none, [Ev.mp4Check]) := by
  by_cases hE : td.isEmpty = true
  · simp [stepMp4, hE]
  · simp only [Bool.not_eq_true] at hE
    simp [stepMp4, hE, hc, hs, hf]

theorem stepMp4_trace (r : Option (List (String × Json))) (dl : Bool) :
    (stepMp4 r dl).2 = [Ev.mp4Check] ∨ (stepMp4 r dl).2 = [Ev.mp4Check, Ev.mp4Download] := by
  rcases r with _ | td
  · left; rfl
  · simp only [stepMp4]
    repeat' split
    all_goals simp

theorem stepMp4_count_mp4Check (r : Option (List (String × Json))) (dl : Bool) :
    ((stepMp4 r dl).2).count Ev.mp4Check = 1 := by
  rcases stepMp4_trace r dl with h | h <;> rw [h] <;> rfl

theorem stepMp4_count_other (r : Option (List (String × Json))) (dl : Bool) (e : Ev)
    (h1 : e ≠ Ev.mp4Check) (h2 : e ≠ Ev.mp4Download) :
    ((stepMp4 r dl).2).count e = 0 := by
  have e1 : (Ev.mp4Check == e) = false := beq_eq_false_iff_ne.mpr (Ne.symm h1)
  have e2 : (Ev.mp4Download == e) = false := beq_eq_false_iff_ne.mpr (Ne.symm h2)
  rcases stepMp4_trace r dl with h | h <;> rw [h] <;>
    simp [List.count_cons, List.count_nil, e1, e2]

theorem monitorMp4_count (ms : Nat → Option (List (String × Json))) (md : Nat → Bool)
    (n : Nat) (e : Ev) (h1 : e ≠ Ev.mp4Check) (h2 : e ≠ Ev.mp4Download)
    (h3 : e ≠ Ev.persistMp4) :
    ((monitor_and_download_mp4 ms md n).2).count e = 0 := by
  unfold monitor_and_download_mp4
  simp only [List.count_cons]
  rw [pollLoop_count_zero (fun i => stepMp4 (ms i) (md i)) e
    (fun i => stepMp4_count_other (ms i) (md i) e h1 h2) n 0]
  have e3 : (Ev.persistMp4 == e) = false := beq_eq_false_iff_ne.mpr (Ne.symm h3)
  simp [e3]

theorem mp4ChainEvents_count (msub : HttpOutcome) (ms : Nat → Option (List (String × Json)))
    (md : Nat → Bool) (n : Nat) (e : Ev) (h1 : e ≠ Ev.mp4Check) (h2 : e ≠ Ev.mp4Download)
    (h3 : e ≠ Ev.persistMp4) (h4 : e ≠ Ev.mp4Submit) :
    (mp4ChainEvents msub ms md n).count e = 0 := by
  unfold mp4ChainEvents
  simp only [List.count_cons]
  have hz : ∀ l : List Ev,
      l = [] ∨ l = Ev.persistMp4 :: (monitor_and_download_mp4 ms md n).2 → l.count e = 0 := by
    rintro l (rfl | rfl)
    · rfl
    · have e3 : (Ev.persistMp4 == e) = false := beq_eq_false_iff_ne.mpr (Ne.symm h3)
      simp only [List.count_cons]
      rw [monitorMp4_count ms md n e h1 h2 h3]
      simp [e3]
  have hmain : (match generate_mp4 msub with
      | none => ([] : List Ev)
      | some resp =>
        if truthyOpt ((resp.lookup "success").getD Json.null) then
          match resp.lookup "data" with
          | some (Json.obj d) =>
            match d.lookup "taskId" with
            | some t =>
              if truthy t then Ev.persistMp4 :: (monitor_and_download_mp4 ms md n).2
              else []
            | none => []
          | _ => []
        else []).count e = 0 := by
    rcases generate_mp4 msub with _ | resp
    · rfl
    · simp only []
      split
      · rcases hd : resp.lookup "data" with _ | v
        · rfl
        · rcases v with _ | _ | _ | _ | _ | d
          · rfl
          · rfl
          · rfl
          · rfl
          · rfl
          · simp only []
            rcases ht : d.lookup "taskId" with _ | t
            · rfl
            · simp only []
              split
              · exact hz _ (Or.inr rfl)
              · rfl
      · rfl
  rw [hmain]
  have e4 : (Ev.mp4Submit == e) = false := beq_eq_false_iff_ne.mpr (Ne.symm h4)
  simp [e4]

theorem stepAudio_trace (gm : Bool) (msub : HttpOutcome)
    (ms : Nat → Option (List (String × Json))) (md : Nat → Bool) (mm : Nat)
    (r : Option (List (String × Json))) (dl : Bool) :
    (stepAudio gm msub ms md mm r dl).2 = [Ev.check] ∨
    ∃ chain, (stepAudio gm msub ms md mm r dl).2 = Ev.check :: Ev.download :: chain ∧
      (chain = [] ∨ chain = mp4ChainEvents msub ms md mm) := by
  rcases r with _ | td
  · left; rfl
  · by_cases hE : td.isEmpty = true
    · left; simp [stepAudio, hE]
    · simp only [Bool.not_eq_true] at hE
      by_cases hc : codeTerminalAudio (td.lookup "code") = true
      · left; simp [stepAudio, hE, hc]
      · simp only [Bool.not_eq_true] at hc
        by_cases hs : audioSuccessStatus (audioStatusOf td) = true
        · by_cases hu : truthyOpt (find_audio_url (Json.obj td)) = true
          · right
            refine ⟨if gm && truthyOpt (find_audio_id (Json.obj td)) && dl then
                mp4ChainEvents msub ms md mm else [], ?_, ?_⟩
            · simp [stepAudio, hE, hc, hs, hu]
            · by_cases hg : (gm && truthyOpt (find_audio_id (Json.obj td)) && dl) = true
              · right; simp [hg]
              · simp only [Bool.not_eq_true] at hg; left; simp [hg]
          · simp only [Bool.not_eq_true] at hu
            left; simp [stepAudio, hE, hc, hs, hu]
        · simp only [Bool.not_eq_true] at hs
          by_cases hf : audioFailStatus (audioStatusOf td) = true
          · left; simp [stepAudio, hE, hc, hs, hf]
          · simp only [Bool.not_eq_true] at hf
            left; simp [stepAudio, hE, hc, hs, hf]

theorem stepAudio_count_check (gm : Bool) (msub : HttpOutcome)
    (ms : Nat → Option (List (String × Json))) (md : Nat → Bool) (mm : Nat)
    (r : Option (List (String × Json))) (dl : Bool) :
    ((stepAudio gm msub ms md mm r dl).2).count Ev.check = 1 := by
  rcases stepAudio_trace gm msub ms md mm r dl with h | ⟨chain, h, hch⟩
  · rw [h]; rfl
  · rw [h]
    have hz : chain.count Ev.check = 0 := by
      rcases hch with rfl | rfl
      · rfl
      · exact mp4ChainEvents_count msub ms md mm Ev.check (by decide) (by decide) (by decide)
          (by decide)
    simp [List.count_cons, hz]

theorem stepAudio_count_persistTask (gm : Bool) (msub : HttpOutcome)
    (ms : Nat → Option (List (String × Json))) (md : Nat → Bool) (mm : Nat)
    (r : Option (List (String × Json))) (dl : Bool) :
    ((stepAudio gm msub ms md mm r dl).2).count Ev.persistTask = 0 := by
  rcases stepAudio_trace gm msub ms md mm r dl with h | ⟨chain, h, hch⟩
  · rw [h]; rfl
  · rw [h]
    have hz : chain.count Ev.persistTask = 0 := by
      rcases hch with rfl | rfl
      · rfl
      · exact mp4ChainEvents_count msub ms md mm Ev.persistTask (by decide) (by decide)
          (by decide) (by decide)
    simp [List.count_cons, hz]

/-- Claim C2: once a poller observes a terminal status (success-family or
failure-family) on some cycle, it returns on that same cycle — the run makes
exactly `k + 1` status-endpoint calls when the terminal status appears on
cycle `k` (0-based) — and in particular a terminal-failure status on the very
first cycle makes the monitor return the failure outcome after a single status
check, consuming none of the remaining attempts.  This holds for the audio
monitor `monitor_and_download` and the video monitor
`monitor_and_download_mp4` alike. -/
theorem C2_terminal_stops_polling :
    (∀ gm msub mscript mdl script dl maxChecks k, k < maxChecks →
      (∀ j, j < k → (stepAudio gm msub mscript mdl maxChecks (script j) (dl j)).1 = none) →
      audioTerminalStatusResp (script k) →
      ((monitor_and_download gm msub mscript mdl script dl maxChecks).2).count Ev.check
        = k + 1)
    ∧ (∀ gm msub mscript mdl script dl maxChecks, 0 < maxChecks →
      audioFailStatusResp (script 0) →
      monitor_and_download gm msub mscript mdl script dl maxChecks =
        (Outcome.failed, [Ev.persistTask, Ev.check]))
    ∧ (∀ mscript mdl maxChecks k, k < maxChecks →
      (∀ j, j < k → (stepMp4 (mscript j) (mdl j)).1 = none) →
      mp4TerminalStatusResp (mscript k) →
      ((monitor_and_download_mp4 mscript mdl maxChecks).2).count Ev.mp4Check = k + 1)
    ∧ (∀ mscript mdl maxChecks, 0 < maxChecks →
      mp4FailStatusResp (mscript 0) →
      monitor_and_download_mp4 mscript mdl maxChecks =
        (Outcome.failed, [Ev.persistMp4, Ev.mp4Check])) := by
  refine ⟨?_, ?_, ?_, ?_⟩
  · intro gm msub mscript mdl script dl maxChecks k hk hnone hterm
    obtain ⟨td, hres, hfam⟩ := hterm
    have hsome : ((stepAudio gm msub mscript mdl maxChecks (script k) (dl k)).1).isSome
        = true := by
      rw [hres]
      exact stepAudio_terminal_isSome gm msub mscript mdl maxChecks td (dl k) hfam
    obtain ⟨o, ho⟩ := Option.isSome_iff_exists.mp hsome
    have hloop := pollLoop_stops
      (fun i => stepAudio gm msub mscript mdl maxChecks (script i) (dl i)) Ev.check
      (fun i => stepAudio_count_check gm msub mscript mdl maxChecks (script i) (dl i))
      k 0 maxChecks o hk
      (fun j hj => by simpa using hnone j hj)
      (by simpa using ho)
    unfold monitor_and_download
    simp only [List.count_cons]
    rw [hloop.2]
    simp
  · intro gm msub mscript mdl script dl maxChecks hpos hfail
    obtain ⟨td, hres, hf⟩ := hfail
    rcases maxChecks with _ | f
    · omega
    · have hstep : stepAudio gm msub mscript mdl (f + 1) (script 0) (dl 0) =
          (some Outcome.failed, [Ev.check]) := by
        rw [hres]
        exact stepAudio_failStatus gm msub mscript mdl (f + 1) td (dl 0) hf
      have hloop : pollLoop
          (fun i => stepAudio gm msub mscript mdl (f + 1) (script i) (dl i)) 0 (f + 1) =
          (Outcome.failed, [Ev.check]) := by
        unfold pollLoop
        simp only [hstep]
      unfold monitor_and_download
      rw [hloop]
  · intro mscript mdl maxChecks k hk hnone hterm
    obtain ⟨td, hres, _, hfam⟩ := hterm
    have hsome : ((stepMp4 (mscript k) (mdl k)).1).isSome = true := by
      rw [hres]
      exact stepMp4_terminal_isSome td (mdl k) hfam
    obtain ⟨o, ho⟩ := Option.isSome_iff_exists.mp hsome
    have hloop := pollLoop_stops
      (fun i => stepMp4 (mscript i) (mdl i)) Ev.mp4Check
      (fun i => stepMp4_count_mp4Check (mscript i) (mdl i))
      k 0 maxChecks o hk
      (fun j hj => by simpa using hnone j hj)
      (by simpa using ho)
    unfold monitor_and_download_mp4
    simp only [List.count_cons]
    rw [hloop.2]
    simp
  · intro mscript mdl maxChecks hpos hfail
    obtain ⟨td, hres, _, hf⟩ := hfail
    rcases maxChecks with _ | f
    · omega
    · have hstep : stepMp4 (mscript 0) (mdl 0) = (some Outcome.failed, [Ev.mp4Check]) := by
        rw [hres]
        exact stepMp4_failStatus td (mdl 0) hf
      have hloop : pollLoop (fun i => stepMp4 (mscript i) (mdl i)) 0 (f + 1) =
          (Outcome.failed, [Ev.mp4Check]) := by
        unfold pollLoop
        simp only [hstep]
      unfold monitor_and_download_mp4
      rw [hloop]

/-- Claim C2, witness: a failure-family status on the first cycle makes the
audio monitor return failure after exactly one status check, keeping its four
remaining attempts unused. -/
theorem C2_witness :
    monitor_and_download false (HttpOutcome.exn "") (fun _ => none) (fun _ => false)
      (fun _ => some [("status", Json.str "GENERATE_AUDIO_FAILED")]) (fun _ => false) 5 =
      (Outcome.failed, [Ev.persistTask, Ev.check]) := by
  exact C2_terminal_stops_polling.2.1 false (HttpOutcome.exn "") (fun _ => none)
    (fun _ => false) (fun _ => some [("status", Json.str "GENERATE_AUDIO_FAILED")])
    (fun _ => false) 5 (by omega)
    ⟨[("status", Json.str "GENERATE_AUDIO_FAILED")], rfl, rfl⟩

/-- Claim C3: when every one of the `N = maxChecks` cycles yields a
pending-family status (and no terminal application error code), the audio
monitor performs exactly `N` status checks and returns the exhausted outcome —
in particular it never returns the succeeded outcome. -/
theorem C3_pending_exhausts :
    ∀ gm msub mscript mdl script dl N,
      (∀ j, j < N → audioPendingResp (script j)) →
      monitor_and_download gm msub mscript mdl script dl N =
        (Outcome.exhausted, Ev.persistTask :: List.replicate N Ev.check) := by
  intro gm msub mscript mdl script dl N hall
  have hsteps : ∀ j, j < N →
      stepAudio gm msub mscript mdl N (script j) (dl j) = (none, [Ev.check]) := by
    intro j hj
    obtain ⟨td, hres, hpend, hcode⟩ := hall j hj
    rw [hres]
    exact stepAudio_continue gm msub mscript mdl N td (dl j) hcode
      (pending_not_success _ hpend) (pending_not_fail _ hpend)
  have hloop := pollLoop_all_continue
    (fun i => stepAudio gm msub mscript mdl N (script i) (dl i)) Ev.check N 0
    (fun j hj => by simpa using hsteps j hj)
  unfold monitor_and_download
  rw [hloop]

/-- Claim C3, witness: two pending cycles with `maxChecks = 2` give the
exhausted outcome after exactly two status checks. -/
theorem C3_witness :
    monitor_and_download false (HttpOutcome.exn "") (fun _ => none) (fun _ => false)
      (fun _ => some [("status", Json.str "PENDING")]) (fun _ => false) 2 =
      (Outcome.exhausted, [Ev.persistTask, Ev.check, Ev.check]) := by
  have h := C3_pending_exhausts false (HttpOutcome.exn "") (fun _ => none) (fun _ => false)
    (fun _ => some [("status", Json.str "PENDING")]) (fun _ => false) 2
    (fun j hj => ⟨[("status", Json.str "PENDING")], rfl, rfl, rfl⟩)
  simpa using h

theorem stepAudio_success_noChain (gm : Bool) (msub : HttpOutcome)
    (ms : Nat → Option (List (String × Json))) (md : Nat → Bool) (mm : Nat)
    (td : List (String × Json)) (dl : Bool)
    (hs : audioSuccessStatus (audioStatusOf td) = true)
    (hc : codeTerminalAudio (td.lookup "code") = false)
    (hu : truthyOpt (find_audio_url (Json.obj td)) = true)
    (hg : (gm && truthyOpt (find_audio_id (Json.obj td)) && dl) = false) :
    stepAudio gm msub ms md mm (some td) dl =
      (some (if dl then Outcome.succeeded else Outcome.failed), [Ev.check, Ev.download]) := by
  have hne : td.isEmpty = false := by
    rcases td with _ | ⟨p, r⟩
    · rw [audioStatusOf_nil] at hs; cases hs
    · rfl
  simp [stepAudio, hne, hc, hs, hu, hg]

/-- Claim C6, counterexample to the claim as stated: a response carrying the
application code 404 is NOT treated as transient by the video poller — its
cycle returns the failure outcome immediately — while the audio poller's cycle
on the same response continues to the next cycle. -/
theorem C6_counterexample :
    (stepMp4 (some [("code", Json.num 404), ("msg", Json.str "not found")]) true).1 =
      some Outcome.failed ∧
    (stepAudio false (HttpOutcome.exn "") (fun _ => none) (fun _ => false) 1
      (some [("code", Json.num 404), ("msg", Json.str "not found")]) true).1 = none := by
  constructor
  · rfl
  · have h1 : audioStatusOf [("code", Json.num 404), ("msg", Json.str "not found")]
        = none := by
      simp [audioStatusOf, List.lookup, truthyOpt, Option.getD, find_status,
        statusSearchFields, truthy]
    rw [stepAudio_continue false (HttpOutcome.exn "") (fun _ => none) (fun _ => false) 1
      [("code", Json.num 404), ("msg", Json.str "not found")] true rfl
      (by rw [h1]; rfl) (by rw [h1]; rfl)]

/-- Claim C6 (amended): the AUDIO poller classifies application error codes —
404 is transient (the cycle continues, unless the same response also carries a
terminal status), while any other truthy non-200 code (e.g. 429 credit
exhaustion, 455 maintenance) terminates the run with a failure outcome on that
cycle.  The VIDEO poller does not exempt 404: ANY truthy non-200 application
code, 404 included, terminates it with a failure outcome. -/
theorem C6_code_classification :
    (∀ gm msub ms md mm td dl,
      td.lookup "code" = some (Json.num 404) →
      audioSuccessStatus (audioStatusOf td) = false →
      audioFailStatus (audioStatusOf td) = false →
      (stepAudio gm msub ms md mm (some td) dl).1 = none)
    ∧ (∀ gm msub ms md mm td dl c,
      td.lookup "code" = some c → truthy c = true →
      jeqNum c 200 = false → jeqNum c 404 = false →
      (stepAudio gm msub ms md mm (some td) dl).1 = some Outcome.failed)
    ∧ (∀ td dl c, td.lookup "code" = some c → truthy c = true → jeqNum c 200 = false →
      (stepMp4 (some td) dl).1 = some Outcome.failed) := by
  refine ⟨?_, ?_, ?_⟩
  · intro gm msub ms md mm td dl hcode hs hf
    have hc : codeTerminalAudio (td.lookup "code") = false := by
      rw [hcode]; rfl
    rw [stepAudio_continue gm msub ms md mm td dl hc hs hf]
  · intro gm msub ms md mm td dl c hcode htr h200 h404
    have hc : codeTerminalAudio (td.lookup "code") = true := by
      rw [hcode]; simp [codeTerminalAudio, htr, h200, h404]
    rw [stepAudio_terminalCode gm msub ms md mm td dl hc]
  · intro td dl c hcode htr h200
    have hc : codeTerminalMp4 (td.lookup "code") = true := by
      rw [hcode]; simp [codeTerminalMp4, htr, h200]
    rw [stepMp4_terminalCode td dl hc]

/-- Claim C6, witness: a 429 (credit exhaustion) code terminates a video-poll
cycle with failure, by the amended theorem's third conjunct. -/
theorem C6_witness :
    (stepMp4 (some [("code", Json.num 429)]) false).1 = some Outcome.failed :=
  C6_code_classification.2.2 [("code", Json.num 429)] false (Json.num 429) rfl rfl rfl

/-- Claim C7: a response whose extracted status lies in none of the recognized
success, failure or pending families — and which carries no terminal
application error code — makes the cycle continue (it is treated exactly like
a pending cycle) in both the audio poller and the video poller; an
unrecognized status value never by itself produces a failure outcome. -/
theorem C7_unrecognized_is_pending :
    (∀ gm msub ms md mm td dl,
      codeTerminalAudio (td.lookup "code") = false →
      audioSuccessStatus (audioStatusOf td) = false →
      audioFailStatus (audioStatusOf td) = false →
      audioPendingStatus (audioStatusOf td) = false →
      stepAudio gm msub ms md mm (some td) dl = (none, [Ev.check]))
    ∧ (∀ td dl, WellShapedMp4 td →
      codeTerminalMp4 (td.lookup "code") = false →
      mp4SuccessStatus (mp4StatusOf td) = false →
      mp4FailStatus (mp4StatusOf td) = false →
      stepMp4 (some td) dl = (none, [Ev.mp4Check])) := by
  constructor
  · intro gm msub ms md mm td dl hc hs hf _
    exact stepAudio_continue gm msub ms md mm td dl hc hs hf
  · intro td dl _ hc hs hf
    exact stepMp4_continue td dl hc hs hf

/-- Claim C7, witness: the undocumented status value `SOMETHING_NEW` makes
both pollers continue to the next cycle. -/
theorem C7_witness :
    stepAudio false (HttpOutcome.exn "") (fun _ => none) (fun _ => false) 1
      (some [("status", Json.str "SOMETHING_NEW")]) true = (none, [Ev.check]) ∧
    stepMp4 (some [("status", Json.str "SOMETHING_NEW")]) true = (none, [Ev.mp4Check]) := by
  constructor
  · exact C7_unrecognized_is_pending.1 false (HttpOutcome.exn "") (fun _ => none)
      (fun _ => false) 1 [("status", Json.str "SOMETHING_NEW")] true rfl rfl rfl rfl
  · exact C7_unrecognized_is_pending.2 [("status", Json.str "SOMETHING_NEW")] true
      (Or.inl rfl) rfl rfl rfl

/-- Claim C8, counterexample to the claim as stated: in a run that reaches
terminal success on the first cycle and downloads the audio, the audio task id
persist event is the FIRST event of the trace — it precedes both the status
check and the download, so the persist step is not part of the on-success
branch of the sequence. -/
theorem C8_counterexample :
    monitor_and_download false (HttpOutcome.exn "") (fun _ => none) (fun _ => false)
      (fun _ => some [("status", Json.str "SUCCESS"), ("audioUrl", Json.str "http://h/a.mp3")])
      (fun _ => true) 3 =
      (Outcome.succeeded, [Ev.persistTask, Ev.check, Ev.download]) ∧
    [Ev.persistTask, Ev.check, Ev.download].indexOf Ev.persistTask = 0 ∧
    [Ev.persistTask, Ev.check, Ev.download].indexOf Ev.download = 2 := by
  refine ⟨?_, by decide, by decide⟩
  have hfu : find_audio_url (Json.obj [("status", Json.str "SUCCESS"),
      ("audioUrl", Json.str "http://h/a.mp3")]) = some (Json.str "http://h/a.mp3") := by
    simp [find_audio_url, firstTruthyKey, audioUrlKeys, List.lookup, truthy,
      dataAudioUrlProbe]
  have hstep := stepAudio_success_noChain false (HttpOutcome.exn "") (fun _ => none)
    (fun _ => false) 3 [("status", Json.str "SUCCESS"), ("audioUrl", Json.str "http://h/a.mp3")]
    true rfl rfl (by rw [hfu]; rfl) rfl
  have hloop : pollLoop (fun i => stepAudio false (HttpOutcome.exn "") (fun _ => none)
      (fun _ => false) 3
      ((fun _ => some [("status", Json.str "SUCCESS"),
        ("audioUrl", Json.str "http://h/a.mp3")]) i) ((fun _ => true) i)) 0 3 =
      (Outcome.succeeded, [Ev.check, Ev.download]) := by
    unfold pollLoop
    simp only [hstep]
    simp
  unfold monitor_and_download
  rw [hloop]

/-- Claim C8 (amended): the audio task identifier is persisted to the sidecar
record exactly once, at the very start of `monitor_and_download` — before any
polling cycle, status check or download — in every run, whatever the script
and outcome; the on-success branch persists only the VIDEO task id.  (The
early persist is what lets a later invocation resume polling.) -/
theorem C8_persist_before_polling :
    ∀ gm msub mscript mdl script dl maxChecks,
      ∃ t, (monitor_and_download gm msub mscript mdl script dl maxChecks).2 =
        Ev.persistTask :: t ∧ t.count Ev.persistTask = 0 := by
  intro gm msub mscript mdl script dl maxChecks
  refine ⟨(pollLoop (fun i => stepAudio gm msub mscript mdl maxChecks (script i) (dl i))
    0 maxChecks).2, rfl, ?_⟩
  exact pollLoop_count_zero
    (fun i => stepAudio gm msub mscript mdl maxChecks (script i) (dl i)) Ev.persistTask
    (fun i => stepAudio_count_persistTask gm msub mscript mdl maxChecks (script i) (dl i))
    maxChecks 0

/-- Claim C9: invoked with a bare `--check-mp4-task` (no id argument) when no
`last_mp4_task_id.txt` sidecar file exists, the process (with its API keys
present, so that the dispatch is reached) reports the absence and exits; its
whole event trace is the single report event, so no status-check, submission,
download or lyrics request is ever issued. -/
theorem C9_no_sidecar_no_network :
    ∀ (anthropicKey : Bool) (args : CliArgs) (taskSidecar : Option String) (env : RunEnv),
      (args.instrumental || anthropicKey) = true →
      args.checkMp4Task = some none →
      mainRun true anthropicKey args none taskSidecar env = [Ev.reportNoMp4Sidecar] ∧
      (∀ e, e ∈ mainRun true anthropicKey args none taskSidecar env →
        networkEv e = false) := by
  intro aK args ts env hkey hflag
  have hcond : (!args.instrumental && !aK) = false := by
    rw [← Bool.not_or, hkey]; rfl
  have hmain : mainRun true aK args none ts env = [Ev.reportNoMp4Sidecar] := by
    simp [mainRun, hcond, hflag, argTruthy]
  refine ⟨hmain, ?_⟩
  intro e he
  rw [hmain] at he
  simp at he
  subst he
  rfl

/-- Claim C9, witness: a concrete invocation — keys present, bare
`--check-mp4-task`, no sidecar file — produces exactly the report event. -/
theorem C9_witness :
    mainRun true true ⟨none, false, false, none, some none, 30⟩ none none
      ⟨fun _ => none, fun _ => false, fun _ => none, fun _ => false,
        HttpOutcome.exn "", none⟩ = [Ev.reportNoMp4Sidecar] := by
  exact (C9_no_sidecar_no_network true ⟨none, false, false, none, some none, 30⟩ none
    ⟨fun _ => none, fun _ => false, fun _ => none, fun _ => false,
      HttpOutcome.exn "", none⟩ rfl rfl).1
